import Mathlib

/-!
Shallow embedding of `doge-scrape.py`: a one-shot ETL pipeline that
downloads a zip archive of CSV files, downloads a JSON feed, outer-joins
the two tables on a pair of key columns, and writes the result to disk.

Network and filesystem effects are modelled by passing the remote world in
explicitly (`ZipFetchEnv`, `FeedEnv`) and returning the would-be file write
as data (`MainResult.written`); console output is modelled as a `List String`
log. Everything else is translated directly from the source.
-/

namespace DogeScrape

/-- A scalar cell of a pandas DataFrame: string, number, boolean, or
missing (NaN/None, collapsed to a single `null`). -/
inductive Value where
  | null
  | str (s : String)
  | num (n : Int)
  | boolean (b : Bool)
deriving DecidableEq, Repr

/-- A pandas DataFrame: a list of column labels, positional rows (cell `i`
of a row belongs to column `i`), and the row index. -/
structure DataFrame where
  columns : List String
  rows : List (List Value)
  index : List Nat
deriving DecidableEq, Repr

/-- `pd.DataFrame()`: the empty frame (0 rows, 0 columns). -/
def emptyFrame : DataFrame := ⟨[], [], []⟩

/-- pandas `DataFrame.empty`: true iff either axis has length 0. -/
def DataFrame.isEmpty (df : DataFrame) : Bool :=
  df.rows.isEmpty || df.columns.isEmpty

/-- Cell lookup by column label: the row value at the first position whose
label equals `c`, `null` if the label is absent (or the row is short). -/
def getCell (cols : List String) (r : List Value) (c : String) : Value :=
  match cols.findIdx? (fun x => x == c) with
  | some i => r.getD i Value.null
  | none => Value.null

/-- Python `str.endswith`, on the character lists of the two strings. -/
def strEndsWith (s t : String) : Bool := t.data.isSuffixOf s.data

/-- pandas merge suffixing: a left column whose label also occurs on the
right is emitted as `label_x`. -/
def leftOutName (cols2 : List String) (c : String) : String :=
  if c ∈ cols2 then c ++ "_x" else c

/-- pandas merge suffixing: a right column whose label also occurs on the
left is emitted as `label_y`. -/
def rightOutName (cols1 : List String) (c : String) : String :=
  if c ∈ cols1 then c ++ "_y" else c

/-- A row of nulls, one per column: the fill used for the missing side of
an unmatched outer-join row. -/
def nullRowOf (cols : List String) : List Value :=
  cols.map (fun _ => Value.null)

/-- The join predicate of `pd.merge`. pandas factorizes the key columns and
gives missing values (NaN) a key code like any other value, so two missing
keys compare equal in a merge (pandas-dev/pandas issue 22491); the
predicate is therefore plain structural equality on `Value`, null included. -/
def keyEq (v w : Value) : Bool := v == w

/-- Row set of `pd.merge(df1, df2, left_on, right_on, how=outer)`:
every pairing of a left and a right row with equal key values, each left
row with no key match null-extended on the right, and each right row with
no key match null-extended on the left. (Row order in pandas differs but
the claims are order-independent.) -/
def outerMergeRows (df1 df2 : DataFrame) (left_on right_on : String) :
    List (List Value) :=
  (df1.rows.flatMap (fun r1 =>
    let ms := df2.rows.filter (fun r2 =>
      keyEq (getCell df1.columns r1 left_on) (getCell df2.columns r2 right_on))
    if ms.isEmpty then [r1 ++ nullRowOf df2.columns]
    else ms.map (fun r2 => r1 ++ r2)))
  ++ (df2.rows.filter (fun r2 =>
      df1.rows.all (fun r1 =>
        !(keyEq (getCell df1.columns r1 left_on)
            (getCell df2.columns r2 right_on))))).map
      (fun r2 => nullRowOf df1.columns ++ r2)

/-- Column labels of the merged frame: left columns then right columns,
suffixed where the two sides overlap. -/
def mergedColumns (df1 df2 : DataFrame) : List String :=
  df1.columns.map (leftOutName df2.columns)
    ++ df2.columns.map (rightOutName df1.columns)

/-- `merge_data(df1, df2, left_on, right_on)` from the source: validate
that each key column exists on its side (returning `pd.DataFrame()` if
not), then perform the outer merge. -/
def merge_data (df1 df2 : DataFrame) (left_on right_on : String) : DataFrame :=
  if left_on ∉ df1.columns then emptyFrame
  else if right_on ∉ df2.columns then emptyFrame
  else
    let rs := outerMergeRows df1 df2 left_on right_on
    ⟨mergedColumns df1 df2, rs, List.range rs.length⟩

/-- Union of column lists in order of first appearance, as
`pd.concat` (with default `sort=False`) forms the non-concatenation axis. -/
def unionCols (ls : List (List String)) : List String :=
  ls.foldl (fun acc cs => acc ++ cs.filter (fun c => !acc.contains c)) []

/-- Realign a row from its own schema to the union schema, filling columns
the source lacked with null. -/
def alignRow (own unionC : List String) (r : List Value) : List Value :=
  unionC.map (fun c => getCell own r c)

/-- `pd.concat(dfs, ignore_index=True)`: `none` on an empty list (pandas
raises `ValueError: No objects to concatenate`); otherwise the vertical
union of the rows, realigned to the union of the columns, with the index
renumbered `0..N-1`. -/
def pd_concat (dfs : List DataFrame) : Option DataFrame :=
  if dfs.isEmpty then none
  else
    let cols := unionCols (dfs.map DataFrame.columns)
    let rs := dfs.flatMap (fun df => df.rows.map (alignRow df.columns cols))
    some ⟨cols, rs, List.range rs.length⟩

/-- One member of the downloaded zip archive: its name and the outcome
`pd.read_csv` would produce on it (`Except.error` models a raised parse
exception). -/
structure ZipMember where
  name : String
  parsed : Except String DataFrame

/-- The remote world seen by `fetch_usaspending_data`: the download raises
a `RequestException`, the body is not a zip (`BadZipFile`), some other
exception occurs before extraction, or the archive opens and lists
`members`. -/
inductive ZipFetchEnv where
  | downloadFail (e : String)
  | badZipFile
  | unexpectedErr (e : String)
  | zipOk (members : List ZipMember)

/-- Result of a fetch stage: the data, the console lines printed, and the
URL requested. -/
structure FetchResult where
  dataframes : List DataFrame
  log : List String
  url : String

/-- The fixed archive URL from the source; the `file_name` argument is
never interpolated into it. -/
def download_url : String :=
  "https://files.usaspending.gov/award_data_archive/FY2025_All_Contracts_Full_20250506.zip"

/-- Body of the per-member loop of `fetch_usaspending_data`: a member
whose name ends in `.csv` is read (appending the frame on success, logging
and skipping on a parse error, setting `csv_files_found` either way); any
other member is ignored. Accumulator: (dataframes, log, csv_files_found). -/
def extractStep (acc : List DataFrame × List String × Bool) (m : ZipMember) :
    List DataFrame × List String × Bool :=
  if strEndsWith m.name ".csv" then
    match m.parsed with
    | Except.ok df =>
        (acc.1 ++ [df], acc.2.1 ++ ["Extracting and reading " ++ m.name], true)
    | Except.error err =>
        (acc.1,
         acc.2.1 ++ ["Extracting and reading " ++ m.name,
           "Error reading CSV file " ++ m.name ++ ": " ++ err],
         true)
  else acc

/-- The full extraction loop over the archive members. -/
def extractLoop (members : List ZipMember) :
    List DataFrame × List String × Bool :=
  members.foldl extractStep ([], [], false)

/-- `fetch_usaspending_data(file_name)` from the source, with the remote
world passed in. Download, zip-open, or other pre-extraction failure is
caught, logged, and yields an empty list; per-member parse failures are
handled inside `extractStep`. No exception escapes: the function is total. -/
def fetch_usaspending_data (file_name : String) (env : ZipFetchEnv) :
    FetchResult :=
  let log0 := ["Downloading " ++ file_name ++ " from USAspending..."]
  match env with
  | ZipFetchEnv.downloadFail e =>
      ⟨[], log0 ++ ["Failed to download " ++ file_name ++ ": " ++ e],
        download_url⟩
  | ZipFetchEnv.badZipFile =>
      ⟨[], log0 ++ ["Failed to open zip file: " ++ file_name ++
          ". It might be corrupted or not a zip file."], download_url⟩
  | ZipFetchEnv.unexpectedErr e =>
      ⟨[], log0 ++
          ["An unexpected error occurred during download or extraction: " ++ e],
        download_url⟩
  | ZipFetchEnv.zipOk members =>
      let st := extractLoop members
      ⟨st.1,
        log0 ++ st.2.1 ++
          (if st.2.2 then [] else ["No CSV file found in " ++ file_name]),
        download_url⟩

/-- The remote world seen by `fetch_doge_contracts`: the request raises,
`response.json()` (or the frame construction) raises, or a frame is
obtained. -/
inductive FeedEnv where
  | requestFail (e : String)
  | decodeFail (e : String)
  | feedOk (df : DataFrame)

/-- The feed URL with the `per_page` query value embedded. -/
def feed_url (per_page : Nat) : String :=
  "https://api.doge.gov/savings/contracts?per_page=" ++ toString per_page

/-- `fetch_doge_contracts(per_page)` from the source, with the remote world
passed in: on any failure an empty DataFrame is returned; no exception
escapes (the function is total). Returns the frame and the console log. -/
def fetch_doge_contracts (per_page : Nat) (env : FeedEnv) :
    DataFrame × List String :=
  let log0 := ["Fetching DOGE contracts from " ++ feed_url per_page ++
    " (per_page=" ++ toString per_page ++ ")..."]
  match env with
  | FeedEnv.feedOk df =>
      (df, log0 ++ ["Retrieved " ++ toString df.rows.length ++
        " contracts from DOGE API."])
  | FeedEnv.requestFail e =>
      (emptyFrame, log0 ++ ["Failed to fetch DOGE contracts from API: " ++ e])
  | FeedEnv.decodeFail e =>
      (emptyFrame,
       log0 ++ ["An unexpected error occurred during API fetch: " ++ e])

/-- Constant from `main`: the display name of the archive. -/
def usaspending_file_name : String := "FY2025_All_Contracts_Full_20250506.zip"

/-- Constant from `main`: the left (USAspending) merge key. -/
def usaspending_merge_key : String := "award_id_piid"

/-- Constant from `main`: the right (DOGE) merge key. -/
def doge_merge_key : String := "piid"

/-- Constant from `main`: the output CSV path. -/
def output_filename : String := "merged_award_data_by_piid.csv"

/-- Outcome of a run of `main`: the file write that would happen
(`none` if no file is written) and the console log. -/
structure MainResult where
  written : Option (String × DataFrame)
  log : List String

/-- `main()` from the source: fetch the archive, abort if nothing was
loaded; concatenate; fetch the feed, abort if it is empty; merge; warn
(and write nothing) if the merge is empty while both inputs are non-empty;
write the output file iff the merged frame is non-empty. -/
def main (zipEnv : ZipFetchEnv) (feedEnv : FeedEnv) : MainResult :=
  let fr := fetch_usaspending_data usaspending_file_name zipEnv
  if fr.dataframes.isEmpty then
    ⟨none, fr.log ++
      ["❌ No USAspending dataframes were loaded. Cannot proceed with merge."]⟩
  else
    let df_usaspending := (pd_concat fr.dataframes).getD emptyFrame
    let log1 := fr.log ++
      ["Concatenating " ++ toString fr.dataframes.length ++
         " USAspending dataframes...",
       "Total rows in concatenated USAspending data: " ++
         toString df_usaspending.rows.length]
    let fd := fetch_doge_contracts 500 feedEnv
    let df_doge := fd.1
    let log2 := log1 ++ fd.2
    if df_doge.isEmpty then
      ⟨none, log2 ++ ["❌ Failed to load DOGE data. Cannot proceed with merge."]⟩
    else
      let merged_df :=
        merge_data df_usaspending df_doge usaspending_merge_key doge_merge_key
      if merged_df.isEmpty && (!df_usaspending.isEmpty && !df_doge.isEmpty) then
        ⟨none, log2 ++
          ["⚠️ Merge resulted in an empty DataFrame. Check merge keys and data."]⟩
      else if !merged_df.isEmpty then
        ⟨some (output_filename, merged_df),
         log2 ++ ["✅ Saved merged data to " ++ output_filename]⟩
      else
        ⟨none, log2⟩

/-- Left table of the end-to-end scenario in the spec (section 8). -/
def dfL : DataFrame :=
  ⟨["award_id_piid", "amount"],
   [[Value.str "P1", Value.num 100], [Value.str "P2", Value.num 200]],
   [0, 1]⟩

/-- Right table of the end-to-end scenario in the spec (section 8). -/
def dfR : DataFrame :=
  ⟨["piid", "savings"],
   [[Value.str "P1", Value.num 50], [Value.str "P3", Value.num 10]],
   [0, 1]⟩

/-- A left table whose key value is duplicated three times. -/
def dfDupL : DataFrame :=
  ⟨["award_id_piid"],
   [[Value.str "A"], [Value.str "A"], [Value.str "A"]],
   [0, 1, 2]⟩

/-- A right table whose key value is duplicated twice. -/
def dfDupR : DataFrame :=
  ⟨["piid"], [[Value.str "A"], [Value.str "A"]], [0, 1]⟩

/-- A left table with a single null-keyed row. -/
def dfNullL : DataFrame :=
  ⟨["award_id_piid", "amount"], [[Value.null, Value.num 100]], [0]⟩

/-- A right table with a single null-keyed row. -/
def dfNullR : DataFrame :=
  ⟨["piid", "savings"], [[Value.null, Value.num 50]], [0]⟩

/-! ## Helper lemmas (shared across the claim theorems) -/

/-- When both key columns exist, `merge_data` reaches the outer merge and
its rows are `outerMergeRows`. -/
lemma merge_data_rows (df1 df2 : DataFrame) (l r : String)
    (hl : l ∈ df1.columns) (hr : r ∈ df2.columns) :
    (merge_data df1 df2 l r).rows = outerMergeRows df1 df2 l r := by
  simp [merge_data, hl, hr]

/-- Membership in the per-left-row piece of the outer merge, matched case. -/
lemma mem_if_piece {ms : List (List Value)} {r2 : List Value}
    (r1 : List Value) (cols2 : List String) (h : r2 ∈ ms) :
    r1 ++ r2 ∈ (if ms.isEmpty then [r1 ++ nullRowOf cols2]
      else ms.map fun x => r1 ++ x) := by
  cases ms with
  | nil => cases h
  | cons a tl => simpa using List.mem_map_of_mem (fun x => r1 ++ x) h

/-- A left row paired with a key-matching right row is in the merge. -/
lemma left_matched_mem (df1 df2 : DataFrame) (l r : String)
    {r1 r2 : List Value} (h1 : r1 ∈ df1.rows) (h2 : r2 ∈ df2.rows)
    (hk : keyEq (getCell df1.columns r1 l) (getCell df2.columns r2 r) = true) :
    r1 ++ r2 ∈ outerMergeRows df1 df2 l r := by
  apply List.mem_append_left
  rw [List.mem_flatMap]
  exact ⟨r1, h1, mem_if_piece r1 df2.columns (List.mem_filter.mpr ⟨h2, hk⟩)⟩

/-- A left row with no key match is in the merge, null-extended on the
right. -/
lemma left_unmatched_mem (df1 df2 : DataFrame) (l r : String)
    {r1 : List Value} (h1 : r1 ∈ df1.rows)
    (hE : df2.rows.filter (fun r2 =>
      keyEq (getCell df1.columns r1 l) (getCell df2.columns r2 r)) = []) :
    r1 ++ nullRowOf df2.columns ∈ outerMergeRows df1 df2 l r := by
  apply List.mem_append_left
  rw [List.mem_flatMap]
  refine ⟨r1, h1, ?_⟩
  simp [hE]

/-- A right row with no key match is in the merge, null-extended on the
left. -/
lemma right_unmatched_mem (df1 df2 : DataFrame) (l r : String)
    {r2 : List Value} (h2 : r2 ∈ df2.rows)
    (hall : ∀ r1 ∈ df1.rows,
      keyEq (getCell df1.columns r1 l) (getCell df2.columns r2 r) = false) :
    nullRowOf df1.columns ++ r2 ∈ outerMergeRows df1 df2 l r := by
  apply List.mem_append_right
  apply List.mem_map_of_mem
  apply List.mem_filter.mpr
  refine ⟨h2, ?_⟩
  rw [List.all_eq_true]
  intro r1 h1
  simp [hall r1 h1]

/-! ## C4: merge key validation -/

/-- C4: if the left key is absent from the columns of the left table or the
right key is absent from the columns of the right table, `merge_data` returns
the empty frame without performing the join (and, being a total function,
without raising). -/
theorem merge_key_validation (df1 df2 : DataFrame) (left_on right_on : String)
    (h : left_on ∉ df1.columns ∨ right_on ∉ df2.columns) :
    merge_data df1 df2 left_on right_on = emptyFrame := by
  rcases h with h | h
  · simp [merge_data, h]
  · by_cases hl : left_on ∈ df1.columns
    · simp [merge_data, hl, h]
    · simp [merge_data, hl]

/-- Witness for C4 at a concrete input: the left table lacks the key
`award_id_piid`. -/
theorem merge_key_validation_witness :
    merge_data ⟨["amount"], [[Value.num 5]], [0]⟩ dfR "award_id_piid" "piid"
      = emptyFrame :=
  merge_key_validation ⟨["amount"], [[Value.num 5]], [0]⟩ dfR
    "award_id_piid" "piid" (Or.inl (by decide))

/-! ## C1: outer-join completeness -/

/-- C1: when both key columns exist, every left row appears at least once
in the merged output (null-extended on the right when its key matches no
right row), and symmetrically every right row appears at least once
(null-extended on the left when unmatched). -/
theorem merge_outer_completeness (df1 df2 : DataFrame) (l r : String)
    (hl : l ∈ df1.columns) (hr : r ∈ df2.columns) :
    (∀ r1 ∈ df1.rows, ∃ rest,
        r1 ++ rest ∈ (merge_data df1 df2 l r).rows ∧
        ((∀ r2 ∈ df2.rows,
            keyEq (getCell df1.columns r1 l) (getCell df2.columns r2 r)
              = false) →
          rest = nullRowOf df2.columns)) ∧
    (∀ r2 ∈ df2.rows, ∃ front,
        front ++ r2 ∈ (merge_data df1 df2 l r).rows ∧
        ((∀ r1 ∈ df1.rows,
            keyEq (getCell df1.columns r1 l) (getCell df2.columns r2 r)
              = false) →
          front = nullRowOf df1.columns)) := by
  rw [merge_data_rows df1 df2 l r hl hr]
  constructor
  · intro r1 h1
    cases hE : df2.rows.filter (fun r2 =>
        keyEq (getCell df1.columns r1 l) (getCell df2.columns r2 r)) with
    | nil =>
      exact ⟨nullRowOf df2.columns, left_unmatched_mem df1 df2 l r h1 hE,
        fun _ => rfl⟩
    | cons m2 tl =>
      have hm2 : m2 ∈ df2.rows.filter (fun r2 =>
          keyEq (getCell df1.columns r1 l) (getCell df2.columns r2 r)) :=
        hE ▸ List.mem_cons_self m2 tl
      have hmem := List.mem_filter.mp hm2
      refine ⟨m2, left_matched_mem df1 df2 l r h1 hmem.1 hmem.2, ?_⟩
      intro hnone
      exact absurd hmem.2 (by simp [hnone m2 hmem.1])
  · intro r2 h2
    by_cases hall : ∀ r1 ∈ df1.rows,
        keyEq (getCell df1.columns r1 l) (getCell df2.columns r2 r) = false
    · exact ⟨nullRowOf df1.columns, right_unmatched_mem df1 df2 l r h2 hall,
        fun _ => rfl⟩
    · push_neg at hall
      obtain ⟨r1, h1, hne⟩ := hall
      have hk : keyEq (getCell df1.columns r1 l) (getCell df2.columns r2 r)
          = true := by
        cases hkk : keyEq (getCell df1.columns r1 l)
            (getCell df2.columns r2 r) with
        | false => exact absurd hkk hne
        | true => rfl
      exact ⟨r1, left_matched_mem df1 df2 l r h1 h2 hk,
        fun hnone => absurd (hnone r1 h1) (by simp [hk])⟩

/-- Witness for C1 on the end-to-end scenario tables of the spec: the left row
`(P2, 200)` appears in the merge of `dfL` and `dfR`. -/
theorem merge_outer_completeness_witness :
    ∃ rest, [Value.str "P2", Value.num 200] ++ rest
        ∈ (merge_data dfL dfR "award_id_piid" "piid").rows ∧
      ((∀ r2 ∈ dfR.rows,
          keyEq (getCell dfL.columns [Value.str "P2", Value.num 200]
            "award_id_piid") (getCell dfR.columns r2 "piid") = false) →
        rest = nullRowOf dfR.columns) :=
  (merge_outer_completeness dfL dfR "award_id_piid" "piid"
      (by decide) (by decide)).1
    [Value.str "P2", Value.num 200] (by decide)

/-! ## C3: null-key merge semantics (corrected) -/

/-- C3 counterexample: the claim says a null-keyed row is never paired
with any row of the other side, so merging the single-null-row tables
`dfNullL` and `dfNullR` would have to produce two rows, each null-extended.
The code (pandas merge) pairs the two null keys instead: the output is the
single combined row, so the claim is false as stated. -/
theorem merge_nullkey_counterexample :
    (merge_data dfNullL dfNullR "award_id_piid" "piid").rows
      = [[Value.null, Value.num 100, Value.null, Value.num 50]] ∧
    (merge_data dfNullL dfNullR "award_id_piid" "piid").rows.length ≠ 2 := by
  decide

/-- C3 amended: a null key never matches any non-null key, but null keys
do match each other (pandas treats NaN as a joinable key value): a
null-keyed left row is paired with exactly the null-keyed right rows, and
when the right side has no null-keyed row the left row appears
null-extended on the right. -/
theorem merge_nullkey_semantics (df1 df2 : DataFrame) (l r : String)
    (hl : l ∈ df1.columns) (hr : r ∈ df2.columns)
    (r1 : List Value) (h1 : r1 ∈ df1.rows)
    (hk : getCell df1.columns r1 l = Value.null) :
    df2.rows.filter (fun r2 =>
        keyEq (getCell df1.columns r1 l) (getCell df2.columns r2 r))
      = df2.rows.filter (fun r2 => getCell df2.columns r2 r == Value.null) ∧
    ((∀ r2 ∈ df2.rows, getCell df2.columns r2 r ≠ Value.null) →
      r1 ++ nullRowOf df2.columns ∈ (merge_data df1 df2 l r).rows) := by
  constructor
  · apply List.filter_congr
    intro r2 _
    rw [hk]
    cases hv : getCell df2.columns r2 r <;> rfl
  · intro hnn
    rw [merge_data_rows df1 df2 l r hl hr]
    apply left_unmatched_mem df1 df2 l r h1
    apply List.filter_eq_nil_iff.mpr
    intro r2 h2
    rw [hk]
    have hv := hnn r2 h2
    cases hg : getCell df2.columns r2 r with
    | null => exact absurd hg hv
    | str s => simp [keyEq]
    | num n => simp [keyEq]
    | boolean b => simp [keyEq]

/-- Witness for the amended C3: the null-keyed row of `dfNullL` against
the all-non-null-keyed `dfR`. -/
theorem merge_nullkey_semantics_witness :
    dfR.rows.filter (fun r2 =>
        keyEq (getCell dfNullL.columns [Value.null, Value.num 100]
          "award_id_piid") (getCell dfR.columns r2 "piid"))
      = dfR.rows.filter (fun r2 => getCell dfR.columns r2 "piid" == Value.null) ∧
    ((∀ r2 ∈ dfR.rows, getCell dfR.columns r2 "piid" ≠ Value.null) →
      [Value.null, Value.num 100] ++ nullRowOf dfR.columns
        ∈ (merge_data dfNullL dfR "award_id_piid" "piid").rows) :=
  merge_nullkey_semantics dfNullL dfR "award_id_piid" "piid"
    (by decide) (by decide) [Value.null, Value.num 100] (by decide) (by decide)

/-! ## Counting lemmas for the merge row-count claim -/

lemma sum_map_one {α : Type _} (l : List α) :
    (l.map (fun _ => (1 : Nat))).sum = l.length := by
  induction l with
  | nil => rfl
  | cons a t ih =>
    simp only [List.map_cons, List.sum_cons, List.length_cons, ih]
    omega

lemma length_le_sum_map {α : Type _} (l : List α) (f : α → Nat)
    (h : ∀ a ∈ l, 1 ≤ f a) : l.length ≤ (l.map f).sum := by
  induction l with
  | nil => simp
  | cons a t ih =>
    have h1 := h a (List.mem_cons_self a t)
    have h2 := ih (fun b hb => h b (List.mem_cons_of_mem a hb))
    simp only [List.map_cons, List.sum_cons, List.length_cons]
    omega

lemma filter_length_eq_sum {α : Type _} (l : List α) (q : α → Bool) :
    (l.filter q).length = (l.map (fun a => if q a then 1 else 0)).sum := by
  induction l with
  | nil => rfl
  | cons a t ih =>
    rw [List.filter_cons]
    by_cases hq : q a = true
    · simp only [hq, if_true, List.length_cons, List.map_cons, List.sum_cons, ih]
      omega
    · simp only [hq, if_false, List.map_cons, List.sum_cons, ih]
      simp [hq]
      exact ih

lemma sum_filter_swap {α β : Type _} (l1 : List α) (l2 : List β)
    (q : α → β → Bool) :
    (l1.map (fun a => (l2.filter (q a)).length)).sum
      = (l2.map (fun b => (l1.filter (fun a => q a b)).length)).sum := by
  induction l1 with
  | nil =>
    rw [List.map_nil, List.sum_nil]
    symm
    apply List.sum_eq_zero
    intro x hx
    rw [List.mem_map] at hx
    obtain ⟨b, _, hxb⟩ := hx
    simp only [List.filter_nil, List.length_nil] at hxb
    omega
  | cons a t ih =>
    simp only [List.map_cons, List.sum_cons]
    rw [ih]
    have hpt : ∀ b ∈ l2,
        ((a :: t).filter (fun x => q x b)).length
          = (if q a b then 1 else 0) + (t.filter (fun x => q x b)).length := by
      intro b _
      rw [List.filter_cons]
      by_cases hq : q a b = true
      · simp [hq]
        omega
      · simp [hq]
    rw [List.map_congr_left hpt, List.sum_map_add, filter_length_eq_sum]

/-- Decomposition of the outer-merge row count: each left row contributes
`max 1 (number of key-matching right rows)`, and each right row with no
key match contributes one more. -/
lemma outerMergeRows_length_parts (df1 df2 : DataFrame) (l r : String) :
    (outerMergeRows df1 df2 l r).length
      = (df1.rows.map (fun r1 =>
          max 1 (df2.rows.filter (fun r2 =>
            keyEq (getCell df1.columns r1 l)
              (getCell df2.columns r2 r))).length)).sum
        + (df2.rows.filter (fun r2 => df1.rows.all (fun r1 =>
            !(keyEq (getCell df1.columns r1 l)
                (getCell df2.columns r2 r))))).length := by
  unfold outerMergeRows
  rw [List.length_append, List.length_flatMap, List.length_map]
  congr 1
  apply congrArg List.sum
  apply List.map_congr_left
  intro r1 _
  simp only [Function.comp]
  cases hE : df2.rows.filter (fun r2 =>
      keyEq (getCell df1.columns r1 l) (getCell df2.columns r2 r)) with
  | nil => simp [hE]
  | cons a tl =>
    simp [hE]

/-! ## C2: merge row-count bound (corrected) -/

/-- C2 counterexample: with the key value `A` occurring three times on the
left and twice on the right, the outer merge produces the 3x2
cross-product, 6 rows, exceeding the claimed upper bound
`left + right = 5`. -/
theorem merge_rowcount_counterexample :
    (merge_data dfDupL dfDupR "award_id_piid" "piid").rows.length = 6 ∧
    ¬ ((merge_data dfDupL dfDupR "award_id_piid" "piid").rows.length
        ≤ dfDupL.rows.length + dfDupR.rows.length) := by
  decide

/-- C2 amended: when both key columns exist, the merge row count is at
least `max(left, right)`, and it equals `left + right` whenever no left
key value matches any right key value; the claimed upper bound
`left + right` (and the converse of the equality condition) can fail when
a key value is duplicated on both sides, as the join then emits the full
cross-product of the matching rows. -/
theorem merge_rowcount_bounds (df1 df2 : DataFrame) (l r : String)
    (hl : l ∈ df1.columns) (hr : r ∈ df2.columns) :
    max df1.rows.length df2.rows.length
      ≤ (merge_data df1 df2 l r).rows.length ∧
    ((∀ r1 ∈ df1.rows, ∀ r2 ∈ df2.rows,
        keyEq (getCell df1.columns r1 l) (getCell df2.columns r2 r)
          = false) →
      (merge_data df1 df2 l r).rows.length
        = df1.rows.length + df2.rows.length) := by
  rw [merge_data_rows df1 df2 l r hl hr, outerMergeRows_length_parts]
  constructor
  · apply max_le
    · have h1 : df1.rows.length ≤ (df1.rows.map (fun r1 =>
          max 1 (df2.rows.filter (fun r2 =>
            keyEq (getCell df1.columns r1 l)
              (getCell df2.columns r2 r))).length)).sum := by
        apply length_le_sum_map
        intro r1 _
        exact le_max_left _ _
      omega
    · have hsw := sum_filter_swap df1.rows df2.rows
        (fun r1 r2 => keyEq (getCell df1.columns r1 l)
          (getCell df2.columns r2 r))
      have hS : (df2.rows.map (fun b => (df1.rows.filter (fun a =>
            keyEq (getCell df1.columns a l)
              (getCell df2.columns b r))).length)).sum
          ≤ (df1.rows.map (fun r1 =>
            max 1 (df2.rows.filter (fun r2 =>
              keyEq (getCell df1.columns r1 l)
                (getCell df2.columns r2 r))).length)).sum := by
        rw [← hsw]
        apply List.sum_le_sum
        intro r1 _
        exact le_max_right _ _
      have hB : (df2.rows.filter (fun r2 => df1.rows.all (fun r1 =>
            !(keyEq (getCell df1.columns r1 l)
                (getCell df2.columns r2 r))))).length
          = (df2.rows.map (fun r2 => if df1.rows.all (fun r1 =>
              !(keyEq (getCell df1.columns r1 l)
                  (getCell df2.columns r2 r))) then 1 else 0)).sum :=
        filter_length_eq_sum _ _
      have hpt : df2.rows.length
          ≤ (df2.rows.map (fun b => (df1.rows.filter (fun a =>
              keyEq (getCell df1.columns a l)
                (getCell df2.columns b r))).length)).sum
            + (df2.rows.map (fun r2 => if df1.rows.all (fun r1 =>
                !(keyEq (getCell df1.columns r1 l)
                    (getCell df2.columns r2 r))) then 1 else 0)).sum := by
        rw [← List.sum_map_add]
        apply length_le_sum_map
        intro r2 _
        by_cases hall : df1.rows.all (fun r1 =>
            !(keyEq (getCell df1.columns r1 l)
                (getCell df2.columns r2 r))) = true
        · simp [hall]
        · have hex : ∃ r1 ∈ df1.rows,
              keyEq (getCell df1.columns r1 l) (getCell df2.columns r2 r)
                = true := by
            rw [List.all_eq_true] at hall
            push_neg at hall
            obtain ⟨r1, h1, hne⟩ := hall
            refine ⟨r1, h1, ?_⟩
            cases hkk : keyEq (getCell df1.columns r1 l)
                (getCell df2.columns r2 r) with
            | true => rfl
            | false => exact absurd (by simp [hkk]) hne
          obtain ⟨r1, h1, hk1⟩ := hex
          have hpos : 0 < (df1.rows.filter (fun a =>
              keyEq (getCell df1.columns a l)
                (getCell df2.columns r2 r))).length :=
            List.length_pos_of_mem (List.mem_filter.mpr ⟨h1, hk1⟩)
          omega
      omega
  · intro hnone
    have hA : ∀ r1 ∈ df1.rows,
        max 1 (df2.rows.filter (fun r2 =>
          keyEq (getCell df1.columns r1 l)
            (getCell df2.columns r2 r))).length = 1 := by
      intro r1 h1
      have hE : df2.rows.filter (fun r2 =>
          keyEq (getCell df1.columns r1 l) (getCell df2.columns r2 r)) = [] :=
        List.filter_eq_nil_iff.mpr (fun r2 h2 => by simp [hnone r1 h1 r2 h2])
      simp [hE]
    rw [List.map_congr_left hA, sum_map_one]
    have hBf : df2.rows.filter (fun r2 => df1.rows.all (fun r1 =>
        !(keyEq (getCell df1.columns r1 l)
            (getCell df2.columns r2 r)))) = df2.rows := by
      apply List.filter_eq_self.mpr
      intro r2 h2
      rw [List.all_eq_true]
      intro r1 h1
      simp [hnone r1 h1 r2 h2]
    rw [hBf]

/-- Witness for the amended C2 on the end-to-end scenario tables of the spec. -/
theorem merge_rowcount_bounds_witness :
    max dfL.rows.length dfR.rows.length
      ≤ (merge_data dfL dfR "award_id_piid" "piid").rows.length ∧
    ((∀ r1 ∈ dfL.rows, ∀ r2 ∈ dfR.rows,
        keyEq (getCell dfL.columns r1 "award_id_piid")
          (getCell dfR.columns r2 "piid") = false) →
      (merge_data dfL dfR "award_id_piid" "piid").rows.length
        = dfL.rows.length + dfR.rows.length) :=
  merge_rowcount_bounds dfL dfR "award_id_piid" "piid" (by decide) (by decide)

/-! ## Extraction-loop lemmas for the archive fetcher -/

/-- The dataframes accumulated by the extraction loop are exactly the
successful parses of the members whose names end in `.csv`. -/
lemma extractLoop_fst_general (members : List ZipMember) :
    ∀ acc : List DataFrame × List String × Bool,
      (members.foldl extractStep acc).1
        = acc.1 ++ (members.filter
            (fun m => strEndsWith m.name ".csv")).filterMap
              (fun m => m.parsed.toOption) := by
  induction members with
  | nil => intro acc; simp
  | cons m t ih =>
    intro acc
    rw [List.foldl_cons, ih (extractStep acc m), List.filter_cons]
    by_cases hc : strEndsWith m.name ".csv" = true
    · rw [if_pos hc]
      cases hp : m.parsed with
      | ok df =>
        simp [extractStep, hc, hp, Except.toOption, List.filterMap_cons]
      | error e =>
        simp [extractStep, hc, hp, Except.toOption, List.filterMap_cons]
    · rw [if_neg hc]
      simp [extractStep, hc]

/-- The `csv_files_found` flag after the loop: true iff it was already
true or some member name ends in `.csv`. -/
lemma extractLoop_found_general (members : List ZipMember) :
    ∀ acc : List DataFrame × List String × Bool,
      (members.foldl extractStep acc).2.2
        = (acc.2.2 || members.any (fun m => strEndsWith m.name ".csv")) := by
  induction members with
  | nil => intro acc; simp
  | cons m t ih =>
    intro acc
    rw [List.foldl_cons, ih (extractStep acc m), List.any_cons]
    by_cases hc : strEndsWith m.name ".csv" = true
    · cases hp : m.parsed with
      | ok df => simp [extractStep, hc, hp]
      | error e => simp [extractStep, hc, hp]
    · simp [extractStep, hc]

/-- The dataframes returned for an opened archive. -/
lemma fetch_zipOk_dataframes (name : String) (members : List ZipMember) :
    (fetch_usaspending_data name (ZipFetchEnv.zipOk members)).dataframes
      = (members.filter (fun m => strEndsWith m.name ".csv")).filterMap
          (fun m => m.parsed.toOption) := by
  simp [fetch_usaspending_data, extractLoop, extractLoop_fst_general]

/-! ## C5: archive fetcher error isolation -/

/-- C5: a download failure or a failure to open the archive as a zip
aborts the fetch with an empty list, while a parse failure on one member
only skips that member: every member ending in `.csv` whose parse
succeeds still contributes its frame. The embedding is a total function,
so no exception reaches the caller. -/
theorem fetch_archive_error_isolation :
    (∀ name e, (fetch_usaspending_data name
      (ZipFetchEnv.downloadFail e)).dataframes = []) ∧
    (∀ name, (fetch_usaspending_data name
      ZipFetchEnv.badZipFile).dataframes = []) ∧
    (∀ name members m df, m ∈ members → strEndsWith m.name ".csv" = true →
      m.parsed = Except.ok df →
      df ∈ (fetch_usaspending_data name
        (ZipFetchEnv.zipOk members)).dataframes) := by
  refine ⟨fun name e => rfl, fun name => rfl, ?_⟩
  intro name members m df hm hcsv hok
  rw [fetch_zipOk_dataframes, List.mem_filterMap]
  exact ⟨m, List.mem_filter.mpr ⟨hm, hcsv⟩, by rw [hok]; rfl⟩

/-- Witness for C5: with a failing parse between two good members, the
frame of the later good member is still returned. -/
theorem fetch_archive_error_isolation_witness :
    dfR ∈ (fetch_usaspending_data "FY2025_All_Contracts_Full_20250506.zip"
      (ZipFetchEnv.zipOk
        [⟨"a.csv", Except.ok dfL⟩, ⟨"bad.csv", Except.error "parse error"⟩,
         ⟨"b.csv", Except.ok dfR⟩])).dataframes :=
  fetch_archive_error_isolation.2.2 "FY2025_All_Contracts_Full_20250506.zip"
    [⟨"a.csv", Except.ok dfL⟩, ⟨"bad.csv", Except.error "parse error"⟩,
     ⟨"b.csv", Except.ok dfR⟩]
    ⟨"b.csv", Except.ok dfR⟩ dfR
    (List.mem_cons_of_mem _ (List.mem_cons_of_mem _ (List.mem_cons_self _ _)))
    (by decide) rfl

/-! ## C6: feed fetcher error handling -/

/-- C6: a network failure or a JSON-decode failure of the feed request
yields the empty frame, which has zero rows and zero columns; the
embedding is a total function, so no exception reaches the caller. -/
theorem fetch_feed_error_handling :
    ∀ (per_page : Nat) (e : String),
      (fetch_doge_contracts per_page (FeedEnv.requestFail e)).1 = emptyFrame ∧
      (fetch_doge_contracts per_page (FeedEnv.decodeFail e)).1 = emptyFrame ∧
      emptyFrame.rows.length = 0 ∧ emptyFrame.columns.length = 0 :=
  fun _ _ => ⟨rfl, rfl, rfl, rfl⟩

/-! ## C7: concatenator row count -/

/-- C7: on a non-empty list of frames, `pd_concat` succeeds, its output
has exactly the sum of the input row counts, and its index is renumbered
contiguously `0..N-1`. -/
theorem concat_rowcount :
    ∀ dfs : List DataFrame, dfs ≠ [] →
      ∃ df, pd_concat dfs = some df ∧
        df.rows.length = (dfs.map (fun d => d.rows.length)).sum ∧
        df.index = List.range df.rows.length := by
  intro dfs hne
  have hF : dfs.isEmpty = false := List.isEmpty_eq_false.mpr hne
  refine ⟨⟨unionCols (dfs.map DataFrame.columns),
      dfs.flatMap (fun df => df.rows.map (alignRow df.columns
        (unionCols (dfs.map DataFrame.columns)))),
      List.range (dfs.flatMap (fun df => df.rows.map (alignRow df.columns
        (unionCols (dfs.map DataFrame.columns))))).length⟩, ?_, ?_, rfl⟩
  · simp [pd_concat, hF]
  · show (dfs.flatMap (fun df => df.rows.map
        (alignRow df.columns (unionCols (dfs.map DataFrame.columns))))).length
      = (dfs.map (fun d => d.rows.length)).sum
    rw [List.length_flatMap]
    apply congrArg List.sum
    apply List.map_congr_left
    intro d _
    simp [Function.comp]

/-- Witness for C7 on two concrete frames. -/
theorem concat_rowcount_witness :
    ∃ df, pd_concat [dfL, dfR] = some df ∧
      df.rows.length = ([dfL, dfR].map (fun d => d.rows.length)).sum ∧
      df.index = List.range df.rows.length :=
  concat_rowcount [dfL, dfR] (by decide)

/-! ## C9: archive-name noninterference -/

/-- C9: the archive name parameter influences only the console log: for
any two names and the same remote responses, the returned dataframes are
identical, and the requested URL is the fixed `download_url` (which does
not mention the name). -/
theorem fetch_archive_name_noninterference :
    ∀ (n1 n2 : String) (env : ZipFetchEnv),
      (fetch_usaspending_data n1 env).dataframes
        = (fetch_usaspending_data n2 env).dataframes ∧
      (fetch_usaspending_data n1 env).url = download_url := by
  intro n1 n2 env
  cases env <;> exact ⟨rfl, rfl⟩

/-! ## C10: implicit CSV-suffix filter -/

/-- C10: archive members are selected solely by the `.csv` name suffix:
dropping every non-`.csv` member leaves the returned dataframes unchanged
regardless of member contents, and when no member name ends in `.csv` the
fetcher returns an empty list and prints the no-CSV diagnostic. -/
theorem fetch_archive_csv_filter :
    ∀ (name : String) (members : List ZipMember),
      (fetch_usaspending_data name (ZipFetchEnv.zipOk members)).dataframes
        = (fetch_usaspending_data name
            (ZipFetchEnv.zipOk (members.filter
              (fun m => strEndsWith m.name ".csv")))).dataframes ∧
      ((∀ m ∈ members, strEndsWith m.name ".csv" = false) →
        (fetch_usaspending_data name
          (ZipFetchEnv.zipOk members)).dataframes = [] ∧
        ("No CSV file found in " ++ name)
          ∈ (fetch_usaspending_data name (ZipFetchEnv.zipOk members)).log) := by
  intro name members
  constructor
  · rw [fetch_zipOk_dataframes, fetch_zipOk_dataframes]
    congr 1
    exact (List.filter_eq_self.mpr
      (fun m hm => (List.mem_filter.mp hm).2)).symm
  · intro hall
    have hfil : members.filter (fun m => strEndsWith m.name ".csv") = [] :=
      List.filter_eq_nil_iff.mpr (fun m hm => by simp [hall m hm])
    have hany : members.any (fun m => strEndsWith m.name ".csv") = false := by
      rw [List.any_eq_false]
      intro m hm
      simp [hall m hm]
    have hfound : (extractLoop members).2.2 = false := by
      rw [extractLoop, extractLoop_found_general members ([], [], false)]
      simp [hany]
    constructor
    · rw [fetch_zipOk_dataframes, hfil]
      rfl
    · simp only [fetch_usaspending_data, hfound]
      simp [List.mem_append]

/-- Witness for C10: a single non-CSV member yields no dataframes and the
no-CSV diagnostic. -/
theorem fetch_archive_csv_filter_witness :
    (fetch_usaspending_data "FY2025_All_Contracts_Full_20250506.zip"
        (ZipFetchEnv.zipOk
          [⟨"readme.txt", Except.error "not csv"⟩])).dataframes = [] ∧
    ("No CSV file found in " ++ "FY2025_All_Contracts_Full_20250506.zip")
      ∈ (fetch_usaspending_data "FY2025_All_Contracts_Full_20250506.zip"
          (ZipFetchEnv.zipOk
            [⟨"readme.txt", Except.error "not csv"⟩])).log :=
  (fetch_archive_csv_filter "FY2025_All_Contracts_Full_20250506.zip"
      [⟨"readme.txt", Except.error "not csv"⟩]).2
    (by decide)

/-! ## C8: orchestrator terminal behaviour -/

/-- C8: the output file is written only with a non-empty merge result,
and each abort case — archive fetch yielded nothing, feed table empty,
merge empty with both inputs non-empty — terminates with no file written
and the corresponding diagnostic in the log. -/
theorem main_terminal_behaviour :
    ∀ (zipEnv : ZipFetchEnv) (feedEnv : FeedEnv),
      (∀ fn df, (main zipEnv feedEnv).written = some (fn, df) →
        fn = output_filename ∧ df.isEmpty = false) ∧
      ((fetch_usaspending_data usaspending_file_name zipEnv).dataframes = [] →
        (main zipEnv feedEnv).written = none ∧
        "❌ No USAspending dataframes were loaded. Cannot proceed with merge."
          ∈ (main zipEnv feedEnv).log) ∧
      ((fetch_usaspending_data usaspending_file_name zipEnv).dataframes ≠ [] →
        (fetch_doge_contracts 500 feedEnv).1.isEmpty = true →
        (main zipEnv feedEnv).written = none ∧
        "❌ Failed to load DOGE data. Cannot proceed with merge."
          ∈ (main zipEnv feedEnv).log) ∧
      ((fetch_usaspending_data usaspending_file_name zipEnv).dataframes ≠ [] →
        (fetch_doge_contracts 500 feedEnv).1.isEmpty = false →
        (merge_data ((pd_concat (fetch_usaspending_data usaspending_file_name
              zipEnv).dataframes).getD emptyFrame)
            (fetch_doge_contracts 500 feedEnv).1
            usaspending_merge_key doge_merge_key).isEmpty = true →
        ((pd_concat (fetch_usaspending_data usaspending_file_name
            zipEnv).dataframes).getD emptyFrame).isEmpty = false →
        (main zipEnv feedEnv).written = none ∧
        "⚠️ Merge resulted in an empty DataFrame. Check merge keys and data."
          ∈ (main zipEnv feedEnv).log) := by
  intro zipEnv feedEnv
  refine ⟨?_, ?_, ?_, ?_⟩
  · intro fn df h
    by_cases h1 : (fetch_usaspending_data usaspending_file_name
        zipEnv).dataframes.isEmpty
    · simp [main, h1] at h
    · by_cases h2 : (fetch_doge_contracts 500 feedEnv).1.isEmpty
      · simp [main, h1, h2] at h
      · by_cases hm : (merge_data ((pd_concat (fetch_usaspending_data
            usaspending_file_name zipEnv).dataframes).getD emptyFrame)
            (fetch_doge_contracts 500 feedEnv).1
            usaspending_merge_key doge_merge_key).isEmpty
        · by_cases hus : ((pd_concat (fetch_usaspending_data
              usaspending_file_name zipEnv).dataframes).getD
                emptyFrame).isEmpty
          · simp [main, h1, h2, hm, hus] at h
          · simp [main, h1, h2, hm, hus] at h
        · simp [main, h1, h2, hm] at h
          exact ⟨h.1.symm, by rw [← h.2]; simp [hm]⟩
  · intro hnil
    have h1 : (fetch_usaspending_data usaspending_file_name
        zipEnv).dataframes.isEmpty = true := List.isEmpty_iff.mpr hnil
    constructor
    · simp [main, h1]
    · simp [main, h1, List.mem_append]
  · intro hne h2
    have h1 : (fetch_usaspending_data usaspending_file_name
        zipEnv).dataframes.isEmpty = false := List.isEmpty_eq_false.mpr hne
    constructor
    · simp [main, h1, h2]
    · simp [main, h1, h2, List.mem_append]
  · intro hne h2 hm hus
    have h1 : (fetch_usaspending_data usaspending_file_name
        zipEnv).dataframes.isEmpty = false := List.isEmpty_eq_false.mpr hne
    constructor
    · simp [main, h1, h2, hm, hus]
    · simp [main, h1, h2, hm, hus, List.mem_append]

/-- Witness for C8: a failed download aborts the run with the
no-dataframes diagnostic and no file written. -/
theorem main_terminal_behaviour_witness :
    (main (ZipFetchEnv.downloadFail "connection error")
        (FeedEnv.requestFail "connection error")).written = none ∧
    "❌ No USAspending dataframes were loaded. Cannot proceed with merge."
      ∈ (main (ZipFetchEnv.downloadFail "connection error")
          (FeedEnv.requestFail "connection error")).log :=
  (main_terminal_behaviour (ZipFetchEnv.downloadFail "connection error")
      (FeedEnv.requestFail "connection error")).2.1 rfl

end DogeScrape
